import Mathlib

/-!
Verification development for the shapeshyft_client library.

The definitions below are a shallow embedding of the TypeScript sources:
the shared helpers (src/utils/shapeshyft-helpers.ts), the API facade
(ShapeshyftClient) and the state-binding hooks (useKeys, useProjects,
useEndpoints, useSettings, useAnalytics, useRateLimits, useStorageConfig,
useAiExecute).  JavaScript strings are Lean strings, JavaScript values
appearing in query-parameter objects and AI inputs are the inductive
type JsValue, optional/absent fields are Option, and thrown exceptions
are modelled with an explicit Except layer.
-/

namespace Shapeshyft

/-! ## JavaScript value model -/

/-- A JavaScript value as it can appear in a query-parameter object or as
an AI-execution input: undefined, null, booleans, (integer) numbers,
strings, arrays and plain objects. -/
inductive JsValue where
  | undef
  | null
  | bool (b : Bool)
  | num (n : Int)
  | str (s : String)
  | arr (items : List JsValue)
  | obj (fields : List (String × JsValue))

/-- Whether a value is null or undefined (the values that
buildQueryString filters out). -/
def JsValue.isNullish : JsValue → Bool
  | .undef => true
  | .null => true
  | _ => false

/-- JavaScript truthiness of a value (NaN is not modelled; numbers are
integers). -/
def JsValue.truthy : JsValue → Bool
  | .undef => false
  | .null => false
  | .bool b => b
  | .num n => n != 0
  | .str s => s != ""
  | .arr _ => true
  | .obj _ => true

mutual

/-- The result of the JavaScript String(value) conversion.  Arrays
stringify by joining their elements with commas (null and undefined
elements joining as empty), objects as the default object tag. -/
def JsValue.jsString : JsValue → String
  | .undef => "undefined"
  | .null => "null"
  | .bool b => if b then "true" else "false"
  | .num n => toString n
  | .str s => s
  | .arr items => String.intercalate "," (JsValue.jsStringList items)
  | .obj _ => "[object Object]"

/-- Elementwise String() conversion inside an array join, where null and
undefined become the empty string. -/
def JsValue.jsStringList : List JsValue → List String
  | [] => []
  | .undef :: rest => "" :: JsValue.jsStringList rest
  | .null :: rest => "" :: JsValue.jsStringList rest
  | v :: rest => JsValue.jsString v :: JsValue.jsStringList rest

end

/-- The JavaScript expression v || dflt for an optional string v:
the default is used when v is absent or empty (falsy). -/
def jsOr (v : Option String) (dflt : String) : String :=
  match v with
  | some s => if s == "" then dflt else s
  | none => dflt

/-- Whether the first character list starts with the second. -/
def charsStartWith : List Char → List Char → Bool
  | _, [] => true
  | [], _ :: _ => false
  | c :: cs, p :: ps => c == p && charsStartWith cs ps

/-- Whether the second character list occurs contiguously in the first. -/
def charsInclude : List Char → List Char → Bool
  | [], pat => charsStartWith [] pat
  | c :: cs, pat => charsStartWith (c :: cs) pat || charsInclude cs pat

/-- JavaScript String.prototype.includes: substring containment. -/
def strIncludes (s pat : String) : Bool :=
  charsInclude s.toList pat.toList

/-! ## Percent encoding -/

/-- Uppercase hexadecimal digit for a value below 16. -/
def hexDigitChar (n : Nat) : Char :=
  if n < 10 then Char.ofNat (48 + n) else Char.ofNat (55 + n)

/-- Percent-encoding of one byte, as in %2F. -/
def percentEncodeByte (b : Nat) : String :=
  String.mk [Char.ofNat 37, hexDigitChar (b / 16), hexDigitChar (b % 16)]

/-- The UTF-8 bytes of a character. -/
def utf8Bytes (c : Char) : List Nat :=
  let n := c.toNat
  if n < 128 then [n]
  else if n < 2048 then [192 + n / 64, 128 + n % 64]
  else if n < 65536 then [224 + n / 4096, 128 + (n / 64) % 64, 128 + n % 64]
  else [240 + n / 262144, 128 + (n / 4096) % 64, 128 + (n / 64) % 64, 128 + n % 64]

/-- ASCII letters and digits. -/
def isAsciiAlnum (c : Char) : Bool :=
  (65 ≤ c.toNat && c.toNat ≤ 90) ||
  (97 ≤ c.toNat && c.toNat ≤ 122) ||
  (48 ≤ c.toNat && c.toNat ≤ 57)

/-- Characters left unescaped by encodeURIComponent: alphanumerics and
- _ . ! ~ * ( ) together with the apostrophe (character 39). -/
def uriUnreserved (c : Char) : Bool :=
  isAsciiAlnum c || c == '-' || c == '_' || c == '.' || c == '!' ||
  c == '~' || c == '*' || c == Char.ofNat 39 || c == '(' || c == ')'

/-- The JavaScript encodeURIComponent function on the UTF-8 bytes of the
string. -/
def encodeURIComponent (s : String) : String :=
  String.join (s.toList.map fun c =>
    if uriUnreserved c then String.singleton c
    else String.join ((utf8Bytes c).map percentEncodeByte))

/-- Characters serialized verbatim by URLSearchParams
(application/x-www-form-urlencoded): alphanumerics and * - . _ . -/
def formUnreserved (c : Char) : Bool :=
  isAsciiAlnum c || c == '*' || c == '-' || c == '.' || c == '_'

/-- One character of the URLSearchParams serialization: space becomes +,
unreserved characters stay, everything else is percent-encoded. -/
def formEncodeChar (c : Char) : String :=
  if c == ' ' then "+"
  else if formUnreserved c then String.singleton c
  else String.join ((utf8Bytes c).map percentEncodeByte)

/-- URLSearchParams serialization of a string. -/
def formEncode (s : String) : String :=
  String.join (s.toList.map formEncodeChar)

/-! ## Shared helpers (src/utils/shapeshyft-helpers.ts) -/

/-- buildUrl: remove a trailing slash from the base URL if present (the
effect of replacing the regex for one final slash with the empty string)
and concatenate the path. -/
def buildUrl (baseUrl path : String) : String :=
  let cleanBase :=
    if baseUrl.toList.getLast? = some '/' then String.mk baseUrl.toList.dropLast
    else baseUrl
  cleanBase ++ path

/-- A query-parameter object: property names with their values, in
property-enumeration order. -/
abbrev QueryParams := List (String × JsValue)

/-- buildQueryString: append each entry whose value is neither undefined
nor null to a URLSearchParams accumulator as String(value), serialize,
and prefix with a question mark when nonempty. -/
def buildQueryString (params : QueryParams) : String :=
  let pairs := params.filter fun kv => !kv.2.isNullish
  let queryString :=
    String.intercalate "&"
      (pairs.map fun kv => formEncode kv.1 ++ "=" ++ formEncode kv.2.jsString)
  if queryString != "" then "?" ++ queryString else ""

/-! ## JSON serialization (JSON.stringify) -/

/-- JSON string escaping for quotes, backslashes and control characters. -/
def jsonEscapeChar (c : Char) : String :=
  if c == Char.ofNat 34 then String.mk [Char.ofNat 92, Char.ofNat 34]
  else if c == Char.ofNat 92 then String.mk [Char.ofNat 92, Char.ofNat 92]
  else if c == Char.ofNat 10 then String.mk [Char.ofNat 92, 'n']
  else if c == Char.ofNat 13 then String.mk [Char.ofNat 92, 'r']
  else if c == Char.ofNat 9 then String.mk [Char.ofNat 92, 't']
  else if c.toNat < 32 then
    String.mk [Char.ofNat 92, 'u', '0', '0', hexDigitChar (c.toNat / 16), hexDigitChar (c.toNat % 16)]
  else String.singleton c

/-- A JSON string literal with surrounding quotes. -/
def jsonQuote (s : String) : String :=
  String.mk [Char.ofNat 34] ++ String.join (s.toList.map jsonEscapeChar) ++ String.mk [Char.ofNat 34]

mutual

/-- JSON.stringify of one value; none models the undefined result (for
the undefined value itself, which serializers omit or drop). -/
def jsonStringifyVal : JsValue → Option String
  | .undef => none
  | .null => some "null"
  | .bool b => some (if b then "true" else "false")
  | .num n => some (toString n)
  | .str s => some (jsonQuote s)
  | .arr items => some ("[" ++ String.intercalate "," (jsonStringifyArr items) ++ "]")
  | .obj fields =>
      some ("\x7b" ++ String.intercalate "," (jsonStringifyObj fields) ++ "\x7d")

/-- Array elements under JSON.stringify; undefined elements serialize as
null. -/
def jsonStringifyArr : List JsValue → List String
  | [] => []
  | v :: rest => (jsonStringifyVal v).getD "null" :: jsonStringifyArr rest

/-- Object properties under JSON.stringify; properties whose value
serializes to undefined are omitted. -/
def jsonStringifyObj : List (String × JsValue) → List String
  | [] => []
  | (k, v) :: rest =>
      match jsonStringifyVal v with
      | some sv => (jsonQuote k ++ ":" ++ sv) :: jsonStringifyObj rest
      | none => jsonStringifyObj rest

end

/-- JSON.stringify as used on a (truthy, hence defined) AI input. -/
def jsonStringify (v : JsValue) : String :=
  (jsonStringifyVal v).getD ""

/-! ## Response envelope and transport model -/

/-- The uniform response envelope (BaseResponse): success flag, optional
payload, optional error text, optional message text, timestamp. -/
structure BaseResponse (α : Type) where
  success : Bool
  data : Option α
  error : Option String
  message : Option String
  timestamp : String

/-- What the injected network transport resolves with: an ok flag and an
optional envelope. -/
structure TransportResponse (α : Type) where
  ok : Bool
  data : Option (BaseResponse α)

/-- A thrown JavaScript exception: either an Error object carrying a
message, or some non-Error value. -/
inductive Thrown where
  | error (message : String)
  | nonError

/-- The expression (err instanceof Error ? err.message : dflt) used by
every catch block. -/
def Thrown.messageOr : Thrown → String → String
  | .error m, _ => m
  | .nonError, dflt => dflt

/-- The outcome a binding observes from awaiting a facade method: either
a returned envelope or a thrown exception. -/
abbrev FacadeOutcome (α : Type) := Except Thrown (BaseResponse α)

/-! ## API facade (ShapeshyftClient and handleApiError) -/

/-- handleApiError: the message of the Error built from a transport
response, taking the envelope error field, else its message field, else
"Unknown error" (each step under JavaScript truthiness, so empty strings
also fall through). -/
def handleApiError {α : Type} (response : Option (TransportResponse α)) (operation : String) : String :=
  let payload := response.bind (·.data)
  let errorMessage := jsOr (payload.bind (·.error)) (jsOr (payload.bind (·.message)) "Unknown error")
  "Failed to " ++ operation ++ ": " ++ errorMessage

/-- The result-handling pattern shared by every facade method: when the
transport is not ok or carries no envelope, throw the handleApiError
Error, otherwise return the envelope. -/
def facadeResult {α : Type} (response : TransportResponse α) (operation : String) :
    Except String (BaseResponse α) :=
  match response.data with
  | none => .error (handleApiError (some response) operation)
  | some env =>
      if response.ok then .ok env
      else .error (handleApiError (some response) operation)

/-- The URL built by ShapeshyftClient.getKeys. -/
def getKeysUrl (baseUrl userId : String) : String :=
  buildUrl baseUrl ("/api/v1/users/" ++ encodeURIComponent userId ++ "/keys")

/-- The transport method selector of the AI execution entry points. -/
inductive HttpMethod where
  | GET
  | POST

/-- The default method of executeAi (and of the useAiExecute binding
method): POST. -/
def defaultAiMethod : HttpMethod := .POST

/-- A fully-constructed request: method, URL, optional JSON body. -/
structure HttpRequest where
  method : HttpMethod
  url : String
  body : Option JsValue

/-- The request issued by ShapeshyftClient.executeAiGet: the input is
JSON-stringified into a single input query key when truthy, and the
query string is empty otherwise; no body is sent. -/
def executeAiGetRequest (baseUrl projectName endpointName : String) (input : JsValue) :
    HttpRequest :=
  let queryString :=
    if input.truthy then buildQueryString [("input", .str (jsonStringify input))]
    else ""
  { method := .GET
    url := buildUrl baseUrl
      ("/api/v1/ai/" ++ encodeURIComponent projectName ++ "/" ++
        encodeURIComponent endpointName ++ queryString)
    body := none }

/-- The request issued by ShapeshyftClient.executeAiPost: the body is the
object literal wrapping the input under the key input. -/
def executeAiPostRequest (baseUrl projectName endpointName : String) (input : JsValue) :
    HttpRequest :=
  { method := .POST
    url := buildUrl baseUrl
      ("/api/v1/ai/" ++ encodeURIComponent projectName ++ "/" ++
        encodeURIComponent endpointName)
    body := some (.obj [("input", input)]) }

/-- ShapeshyftClient.executeAi: dispatch on the method selector. -/
def executeAiRequest (baseUrl projectName endpointName : String) (input : JsValue)
    (method : HttpMethod) : HttpRequest :=
  match method with
  | .GET => executeAiGetRequest baseUrl projectName endpointName input
  | .POST => executeAiPostRequest baseUrl projectName endpointName input

/-! ## State bindings (hooks)

Each binding operation is embedded as a function from the outcomes of the
facade calls it may perform and the prior binding state to an Except over
thrown exceptions: a .error result would mean the operation rejects
(propagates an exception) to its caller, .ok carries the final state,
the returned value where there is one, and the list of facade calls the
operation performed.  The catch arm of each try/catch appears as the
handling of the .error outcome, and the finally clause as the final
isLoading reset applied on every path. -/

/-- One facade call performed by a binding, with the scope identifiers
and filter params it was given. -/
inductive CallEvent where
  | getKeys (entitySlug : String)
  | createKey (entitySlug : String)
  | updateKey (entitySlug keyId : String)
  | deleteKey (entitySlug keyId : String)
  | getKey (entitySlug keyId : String)
  | getProjects (entitySlug : String) (params : Option QueryParams)
  | getProject (entitySlug projectId : String)
  | createProject (entitySlug : String)
  | updateProject (entitySlug projectId : String)
  | deleteProject (entitySlug projectId : String)
  | getEndpoints (entitySlug projectId : String) (params : Option QueryParams)
  | createEndpoint (entitySlug projectId : String)
  | updateEndpoint (entitySlug projectId endpointId : String)
  | deleteEndpoint (entitySlug projectId endpointId : String)
  | getSettings (userId : String)
  | updateSettings (userId : String)

/-- The failure envelope a binding synthesizes in a catch block:
success false, the caught message as error, current timestamp. -/
def failureEnvelope {α : Type} (msg now : String) : BaseResponse α :=
  { success := false, data := none, error := some msg, message := none, timestamp := now }

namespace useKeys

/-- State held by the useKeys binding. -/
structure State (κ : Type) where
  keys : List κ
  isLoading : Bool
  error : Option String

/-- Initial useKeys state. -/
def init {κ : Type} : State κ := { keys := [], isLoading := false, error := none }

/-- useKeys.refresh: set loading and clear the error, call getKeys, store
the payload on success, otherwise store the envelope error (or the
default message), store the message of a thrown exception, and always
clear loading. -/
def refresh {κ : Type} (outcome : FacadeOutcome (List κ)) (entitySlug : String)
    (s : State κ) : Except Thrown (State κ × List CallEvent) :=
  let s0 : State κ := { s with isLoading := true, error := none }
  let s1 : State κ :=
    match outcome with
    | .ok response =>
        if response.success then
          match response.data with
          | some d => { s0 with keys := d }
          | none => { s0 with error := some (jsOr response.error "Failed to fetch keys") }
        else { s0 with error := some (jsOr response.error "Failed to fetch keys") }
    | .error err => { s0 with error := some (err.messageOr "Failed to fetch keys") }
  .ok ({ s1 with isLoading := false }, [.getKeys entitySlug])

/-- useKeys.getKey: no data-state change; return the envelope, or on a
thrown exception record the message and return a synthesized failure
envelope. -/
def getKey {κ : Type} (outcome : FacadeOutcome κ) (entitySlug keyId now : String)
    (s : State κ) : Except Thrown (State κ × BaseResponse κ × List CallEvent) :=
  let s0 : State κ := { s with isLoading := true, error := none }
  match outcome with
  | .ok response => .ok ({ s0 with isLoading := false }, response, [.getKey entitySlug keyId])
  | .error err =>
      let msg := err.messageOr "Failed to get key"
      .ok ({ s0 with error := some msg, isLoading := false },
        failureEnvelope msg now, [.getKey entitySlug keyId])

/-- The shared body of the useKeys mutations: run the mutation, on a
success envelope await refresh with the same scope, return the mutation
envelope; a thrown exception is recorded and converted into a failure
envelope; loading is always cleared. -/
def mutate {κ : Type} (mutOutcome : FacadeOutcome κ) (refreshOutcome : FacadeOutcome (List κ))
    (entitySlug now dflt : String) (mutEvent : CallEvent) (s : State κ) :
    Except Thrown (State κ × BaseResponse κ × List CallEvent) :=
  let s0 : State κ := { s with isLoading := true, error := none }
  match mutOutcome with
  | .ok response =>
      if response.success then
        match refresh refreshOutcome entitySlug s0 with
        | .ok (s1, calls) =>
            .ok ({ s1 with isLoading := false }, response, mutEvent :: calls)
        | .error err =>
            -- unreachable: refresh never throws; caught here regardless
            let msg := err.messageOr dflt
            .ok ({ s0 with error := some msg, isLoading := false },
              failureEnvelope msg now, [mutEvent])
      else .ok ({ s0 with isLoading := false }, response, [mutEvent])
  | .error err =>
      let msg := err.messageOr dflt
      .ok ({ s0 with error := some msg, isLoading := false },
        failureEnvelope msg now, [mutEvent])

/-- useKeys.createKey. -/
def createKey {κ : Type} (mutOutcome : FacadeOutcome κ) (refreshOutcome : FacadeOutcome (List κ))
    (entitySlug now : String) (s : State κ) :
    Except Thrown (State κ × BaseResponse κ × List CallEvent) :=
  mutate mutOutcome refreshOutcome entitySlug now "Failed to create key"
    (.createKey entitySlug) s

/-- useKeys.updateKey. -/
def updateKey {κ : Type} (mutOutcome : FacadeOutcome κ) (refreshOutcome : FacadeOutcome (List κ))
    (entitySlug keyId now : String) (s : State κ) :
    Except Thrown (State κ × BaseResponse κ × List CallEvent) :=
  mutate mutOutcome refreshOutcome entitySlug now "Failed to update key"
    (.updateKey entitySlug keyId) s

/-- useKeys.deleteKey. -/
def deleteKey {κ : Type} (mutOutcome : FacadeOutcome κ) (refreshOutcome : FacadeOutcome (List κ))
    (entitySlug keyId now : String) (s : State κ) :
    Except Thrown (State κ × BaseResponse κ × List CallEvent) :=
  mutate mutOutcome refreshOutcome entitySlug now "Failed to delete key"
    (.deleteKey entitySlug keyId) s

end useKeys

namespace useProjects

/-- State held by the useProjects binding, including the last-used
filter params retained for post-mutation refreshes. -/
structure State (π : Type) where
  projects : List π
  isLoading : Bool
  error : Option String
  lastParams : Option QueryParams

/-- Initial useProjects state. -/
def init {π : Type} : State π :=
  { projects := [], isLoading := false, error := none, lastParams := none }

/-- useProjects.refresh: also records the params it was called with as
the last-used params. -/
def refresh {π : Type} (outcome : FacadeOutcome (List π)) (entitySlug : String)
    (params : Option QueryParams) (s : State π) :
    Except Thrown (State π × List CallEvent) :=
  let s0 : State π := { s with isLoading := true, error := none, lastParams := params }
  let s1 : State π :=
    match outcome with
    | .ok response =>
        if response.success then
          match response.data with
          | some d => { s0 with projects := d }
          | none => { s0 with error := some (jsOr response.error "Failed to fetch projects") }
        else { s0 with error := some (jsOr response.error "Failed to fetch projects") }
    | .error err => { s0 with error := some (err.messageOr "Failed to fetch projects") }
  .ok ({ s1 with isLoading := false }, [.getProjects entitySlug params])

/-- useProjects.getProject: returns the envelope without touching the
held collection. -/
def getProject {π : Type} (outcome : FacadeOutcome π) (entitySlug projectId now : String)
    (s : State π) : Except Thrown (State π × BaseResponse π × List CallEvent) :=
  let s0 : State π := { s with isLoading := true, error := none }
  match outcome with
  | .ok response =>
      .ok ({ s0 with isLoading := false }, response, [.getProject entitySlug projectId])
  | .error err =>
      let msg := err.messageOr "Failed to get project"
      .ok ({ s0 with error := some msg, isLoading := false },
        failureEnvelope msg now, [.getProject entitySlug projectId])

/-- The shared body of the useProjects mutations: on a success envelope
await refresh with the same scope and the retained lastParams
(lastParams ?? undefined); return the mutation envelope. -/
def mutate {π : Type} (mutOutcome : FacadeOutcome π) (refreshOutcome : FacadeOutcome (List π))
    (entitySlug now dflt : String) (mutEvent : CallEvent) (s : State π) :
    Except Thrown (State π × BaseResponse π × List CallEvent) :=
  let s0 : State π := { s with isLoading := true, error := none }
  match mutOutcome with
  | .ok response =>
      if response.success then
        match refresh refreshOutcome entitySlug s0.lastParams s0 with
        | .ok (s1, calls) =>
            .ok ({ s1 with isLoading := false }, response, mutEvent :: calls)
        | .error err =>
            -- unreachable: refresh never throws; caught here regardless
            let msg := err.messageOr dflt
            .ok ({ s0 with error := some msg, isLoading := false },
              failureEnvelope msg now, [mutEvent])
      else .ok ({ s0 with isLoading := false }, response, [mutEvent])
  | .error err =>
      let msg := err.messageOr dflt
      .ok ({ s0 with error := some msg, isLoading := false },
        failureEnvelope msg now, [mutEvent])

/-- useProjects.createProject. -/
def createProject {π : Type} (mutOutcome : FacadeOutcome π)
    (refreshOutcome : FacadeOutcome (List π)) (entitySlug now : String) (s : State π) :
    Except Thrown (State π × BaseResponse π × List CallEvent) :=
  mutate mutOutcome refreshOutcome entitySlug now "Failed to create project"
    (.createProject entitySlug) s

/-- useProjects.updateProject. -/
def updateProject {π : Type} (mutOutcome : FacadeOutcome π)
    (refreshOutcome : FacadeOutcome (List π)) (entitySlug projectId now : String) (s : State π) :
    Except Thrown (State π × BaseResponse π × List CallEvent) :=
  mutate mutOutcome refreshOutcome entitySlug now "Failed to update project"
    (.updateProject entitySlug projectId) s

/-- useProjects.deleteProject. -/
def deleteProject {π : Type} (mutOutcome : FacadeOutcome π)
    (refreshOutcome : FacadeOutcome (List π)) (entitySlug projectId now : String) (s : State π) :
    Except Thrown (State π × BaseResponse π × List CallEvent) :=
  mutate mutOutcome refreshOutcome entitySlug now "Failed to delete project"
    (.deleteProject entitySlug projectId) s

end useProjects

namespace useEndpoints

/-- State held by the useEndpoints binding. -/
structure State (ε : Type) where
  endpoints : List ε
  isLoading : Bool
  error : Option String
  lastParams : Option QueryParams

/-- Initial useEndpoints state. -/
def init {ε : Type} : State ε :=
  { endpoints := [], isLoading := false, error := none, lastParams := none }

/-- useEndpoints.refresh. -/
def refresh {ε : Type} (outcome : FacadeOutcome (List ε)) (entitySlug projectId : String)
    (params : Option QueryParams) (s : State ε) :
    Except Thrown (State ε × List CallEvent) :=
  let s0 : State ε := { s with isLoading := true, error := none, lastParams := params }
  let s1 : State ε :=
    match outcome with
    | .ok response =>
        if response.success then
          match response.data with
          | some d => { s0 with endpoints := d }
          | none => { s0 with error := some (jsOr response.error "Failed to fetch endpoints") }
        else { s0 with error := some (jsOr response.error "Failed to fetch endpoints") }
    | .error err => { s0 with error := some (err.messageOr "Failed to fetch endpoints") }
  .ok ({ s1 with isLoading := false }, [.getEndpoints entitySlug projectId params])

/-- The shared body of the useEndpoints mutations. -/
def mutate {ε : Type} (mutOutcome : FacadeOutcome ε) (refreshOutcome : FacadeOutcome (List ε))
    (entitySlug projectId now dflt : String) (mutEvent : CallEvent) (s : State ε) :
    Except Thrown (State ε × BaseResponse ε × List CallEvent) :=
  let s0 : State ε := { s with isLoading := true, error := none }
  match mutOutcome with
  | .ok response =>
      if response.success then
        match refresh refreshOutcome entitySlug projectId s0.lastParams s0 with
        | .ok (s1, calls) =>
            .ok ({ s1 with isLoading := false }, response, mutEvent :: calls)
        | .error err =>
            -- unreachable: refresh never throws; caught here regardless
            let msg := err.messageOr dflt
            .ok ({ s0 with error := some msg, isLoading := false },
              failureEnvelope msg now, [mutEvent])
      else .ok ({ s0 with isLoading := false }, response, [mutEvent])
  | .error err =>
      let msg := err.messageOr dflt
      .ok ({ s0 with error := some msg, isLoading := false },
        failureEnvelope msg now, [mutEvent])

/-- useEndpoints.createEndpoint. -/
def createEndpoint {ε : Type} (mutOutcome : FacadeOutcome ε)
    (refreshOutcome : FacadeOutcome (List ε)) (entitySlug projectId now : String) (s : State ε) :
    Except Thrown (State ε × BaseResponse ε × List CallEvent) :=
  mutate mutOutcome refreshOutcome entitySlug projectId now "Failed to create endpoint"
    (.createEndpoint entitySlug projectId) s

/-- useEndpoints.updateEndpoint. -/
def updateEndpoint {ε : Type} (mutOutcome : FacadeOutcome ε)
    (refreshOutcome : FacadeOutcome (List ε)) (entitySlug projectId endpointId now : String)
    (s : State ε) : Except Thrown (State ε × BaseResponse ε × List CallEvent) :=
  mutate mutOutcome refreshOutcome entitySlug projectId now "Failed to update endpoint"
    (.updateEndpoint entitySlug projectId endpointId) s

/-- useEndpoints.deleteEndpoint. -/
def deleteEndpoint {ε : Type} (mutOutcome : FacadeOutcome ε)
    (refreshOutcome : FacadeOutcome (List ε)) (entitySlug projectId endpointId now : String)
    (s : State ε) : Except Thrown (State ε × BaseResponse ε × List CallEvent) :=
  mutate mutOutcome refreshOutcome entitySlug projectId now "Failed to delete endpoint"
    (.deleteEndpoint entitySlug projectId endpointId) s

end useEndpoints

namespace useSettings

/-- State held by the useSettings binding. -/
structure State (σ : Type) where
  settings : Option σ
  isLoading : Bool
  error : Option String

/-- Initial useSettings state. -/
def init {σ : Type} : State σ := { settings := none, isLoading := false, error := none }

/-- useSettings.refresh. -/
def refresh {σ : Type} (outcome : FacadeOutcome σ) (userId : String) (s : State σ) :
    Except Thrown (State σ × List CallEvent) :=
  let s0 : State σ := { s with isLoading := true, error := none }
  let s1 : State σ :=
    match outcome with
    | .ok response =>
        if response.success then
          match response.data with
          | some d => { s0 with settings := some d }
          | none => { s0 with error := some (jsOr response.error "Failed to fetch settings") }
        else { s0 with error := some (jsOr response.error "Failed to fetch settings") }
    | .error err => { s0 with error := some (err.messageOr "Failed to fetch settings") }
  .ok ({ s1 with isLoading := false }, [.getSettings userId])

/-- useSettings.updateSettings: on a success envelope with a payload the
returned record is stored directly; the envelope is returned; no
follow-up read is performed. -/
def updateSettings {σ : Type} (outcome : FacadeOutcome σ) (userId now : String) (s : State σ) :
    Except Thrown (State σ × BaseResponse σ × List CallEvent) :=
  let s0 : State σ := { s with isLoading := true, error := none }
  match outcome with
  | .ok response =>
      let s1 : State σ :=
        if response.success then
          match response.data with
          | some d => { s0 with settings := some d }
          | none => s0
        else s0
      .ok ({ s1 with isLoading := false }, response, [.updateSettings userId])
  | .error err =>
      let msg := err.messageOr "Failed to update settings"
      .ok ({ s0 with error := some msg, isLoading := false },
        failureEnvelope msg now, [.updateSettings userId])

end useSettings

namespace useAnalytics

/-- State held by the useAnalytics binding. -/
structure State (α : Type) where
  analytics : Option α
  isLoading : Bool
  error : Option String

/-- Initial useAnalytics state. -/
def init {α : Type} : State α := { analytics := none, isLoading := false, error := none }

/-- useAnalytics.refresh. -/
def refresh {α : Type} (outcome : FacadeOutcome α) (s : State α) :
    Except Thrown (State α) :=
  let s0 : State α := { s with isLoading := true, error := none }
  let s1 : State α :=
    match outcome with
    | .ok response =>
        if response.success then
          match response.data with
          | some d => { s0 with analytics := some d }
          | none => { s0 with error := some (jsOr response.error "Failed to fetch analytics") }
        else { s0 with error := some (jsOr response.error "Failed to fetch analytics") }
    | .error err => { s0 with error := some (err.messageOr "Failed to fetch analytics") }
  .ok { s1 with isLoading := false }

end useAnalytics

namespace useRateLimits

/-- State held by the useRateLimits binding: a config record and a
history record with separate loading flags and one shared error. -/
structure State (χ η : Type) where
  config : Option χ
  history : Option η
  isLoadingConfig : Bool
  isLoadingHistory : Bool
  error : Option String

/-- Initial useRateLimits state. -/
def init {χ η : Type} : State χ η :=
  { config := none, history := none, isLoadingConfig := false,
    isLoadingHistory := false, error := none }

/-- useRateLimits.refreshConfig. -/
def refreshConfig {χ η : Type} (outcome : FacadeOutcome χ) (s : State χ η) :
    Except Thrown (State χ η) :=
  let s0 : State χ η := { s with isLoadingConfig := true, error := none }
  let s1 : State χ η :=
    match outcome with
    | .ok response =>
        if response.success then
          match response.data with
          | some d => { s0 with config := some d }
          | none =>
              { s0 with error := some (jsOr response.error "Failed to fetch rate limits config") }
        else { s0 with error := some (jsOr response.error "Failed to fetch rate limits config") }
    | .error err => { s0 with error := some (err.messageOr "Failed to fetch rate limits config") }
  .ok { s1 with isLoadingConfig := false }

/-- useRateLimits.refreshHistory. -/
def refreshHistory {χ η : Type} (outcome : FacadeOutcome η) (s : State χ η) :
    Except Thrown (State χ η) :=
  let s0 : State χ η := { s with isLoadingHistory := true, error := none }
  let s1 : State χ η :=
    match outcome with
    | .ok response =>
        if response.success then
          match response.data with
          | some d => { s0 with history := some d }
          | none =>
              { s0 with error := some (jsOr response.error "Failed to fetch rate limit history") }
        else { s0 with error := some (jsOr response.error "Failed to fetch rate limit history") }
    | .error err => { s0 with error := some (err.messageOr "Failed to fetch rate limit history") }
  .ok { s1 with isLoadingHistory := false }

end useRateLimits

namespace useStorageConfig

/-- State held by the useStorageConfig binding. -/
structure State (γ : Type) where
  storageConfig : Option γ
  isLoading : Bool
  error : Option String

/-- Initial useStorageConfig state. -/
def init {γ : Type} : State γ := { storageConfig := none, isLoading := false, error := none }

/-- useStorageConfig.refresh: a success envelope with a payload stores
the record.  Every other envelope clears the record to null and sets the
error only when the envelope carries a truthy error text that does not
contain "not found" (a 404 is expected when no config exists).  A thrown
exception whose message contains "not found" or "404" clears the record
with no error; any other thrown exception stores its message. -/
def refresh {γ : Type} (outcome : FacadeOutcome γ) (s : State γ) :
    Except Thrown (State γ) :=
  let s0 : State γ := { s with isLoading := true, error := none }
  let s1 : State γ :=
    match outcome with
    | .ok response =>
        match response.data with
        | some d =>
            if response.success then { s0 with storageConfig := some d }
            else
              let s2 : State γ := { s0 with storageConfig := none }
              match response.error with
              | some e =>
                  if e != "" && !(strIncludes e "not found") then { s2 with error := some e }
                  else s2
              | none => s2
        | none =>
            let s2 : State γ := { s0 with storageConfig := none }
            match response.error with
            | some e =>
                if e != "" && !(strIncludes e "not found") then { s2 with error := some e }
                else s2
            | none => s2
    | .error err =>
        let msg := err.messageOr "Failed to fetch storage config"
        if strIncludes msg "not found" || strIncludes msg "404" then
          { s0 with storageConfig := none }
        else { s0 with error := some msg }
  .ok { s1 with isLoading := false }

/-- useStorageConfig.createOrUpdate: a success envelope with a payload
stores the record; the envelope is returned; a thrown exception is
recorded and converted to a failure envelope. -/
def createOrUpdate {γ : Type} (outcome : FacadeOutcome γ) (now : String) (s : State γ) :
    Except Thrown (State γ × BaseResponse γ) :=
  let s0 : State γ := { s with isLoading := true, error := none }
  match outcome with
  | .ok response =>
      let s1 : State γ :=
        if response.success then
          match response.data with
          | some d => { s0 with storageConfig := some d }
          | none => s0
        else s0
      .ok ({ s1 with isLoading := false }, response)
  | .error err =>
      let msg := err.messageOr "Failed to create/update storage config"
      .ok ({ s0 with error := some msg, isLoading := false }, failureEnvelope msg now)

/-- useStorageConfig.update (partial update), same shape as
createOrUpdate with its own default message. -/
def update {γ : Type} (outcome : FacadeOutcome γ) (now : String) (s : State γ) :
    Except Thrown (State γ × BaseResponse γ) :=
  let s0 : State γ := { s with isLoading := true, error := none }
  match outcome with
  | .ok response =>
      let s1 : State γ :=
        if response.success then
          match response.data with
          | some d => { s0 with storageConfig := some d }
          | none => s0
        else s0
      .ok ({ s1 with isLoading := false }, response)
  | .error err =>
      let msg := err.messageOr "Failed to update storage config"
      .ok ({ s0 with error := some msg, isLoading := false }, failureEnvelope msg now)

/-- useStorageConfig.deleteConfig: a success envelope clears the held
record; the envelope is returned. -/
def deleteConfig {γ : Type} (outcome : FacadeOutcome γ) (now : String) (s : State γ) :
    Except Thrown (State γ × BaseResponse γ) :=
  let s0 : State γ := { s with isLoading := true, error := none }
  match outcome with
  | .ok response =>
      let s1 : State γ :=
        if response.success then { s0 with storageConfig := none } else s0
      .ok ({ s1 with isLoading := false }, response)
  | .error err =>
      let msg := err.messageOr "Failed to delete storage config"
      .ok ({ s0 with error := some msg, isLoading := false }, failureEnvelope msg now)

end useStorageConfig

namespace useAiExecute

/-- State held by the useAiExecute binding. -/
structure State (ρ : Type) where
  result : Option ρ
  isLoading : Bool
  error : Option String

/-- Initial useAiExecute state. -/
def init {ρ : Type} : State ρ := { result := none, isLoading := false, error := none }

/-- useAiExecute.execute: store the payload of a success envelope, store
the envelope error (or the default) otherwise, return the envelope; a
thrown exception is recorded and converted to a failure envelope. -/
def execute {ρ : Type} (outcome : FacadeOutcome ρ) (now : String) (s : State ρ) :
    Except Thrown (State ρ × BaseResponse ρ) :=
  let s0 : State ρ := { s with isLoading := true, error := none }
  match outcome with
  | .ok response =>
      let s1 : State ρ :=
        if response.success then
          match response.data with
          | some d => { s0 with result := some d }
          | none => { s0 with error := some (jsOr response.error "AI execution failed") }
        else { s0 with error := some (jsOr response.error "AI execution failed") }
      .ok ({ s1 with isLoading := false }, response)
  | .error err =>
      let msg := err.messageOr "AI execution failed"
      .ok ({ s0 with error := some msg, isLoading := false }, failureEnvelope msg now)

end useAiExecute

/-- A failing facade behaviour as the specification describes it: an
unsuccessful envelope or a thrown exception. -/
def failedOutcome {α : Type} : FacadeOutcome α → Prop
  | .ok r => r.success = false
  | .error _ => True

/-- The error text a standard binding refresh stores for a failing
outcome: the envelope error under JavaScript truthiness with the
binding default, or the thrown Error message (with the default for
non-Error values). -/
def failureText {α : Type} (outcome : FacadeOutcome α) (dflt : String) : String :=
  match outcome with
  | .ok r => jsOr r.error dflt
  | .error e => e.messageOr dflt

/-- The error the storage-configuration binding stores for an
unsuccessful envelope: the envelope error text when that text is truthy
(present and non-empty) and does not contain the not-found marker, and
nothing otherwise. -/
def storageEnvelopeError (eo : Option String) : Option String :=
  match eo with
  | some e => if e != "" && !(strIncludes e "not found") then some e else none
  | none => none

/-! ## Claim theorems -/

/-- C8: buildQueryString maps the object with a mapped to the string x,
b to null, c to undefined, d to 1 and e to true to the string
?a=x&d=1&e=true; null and undefined entries are omitted (the result only
depends on the surviving entries), values are stringified in
property-enumeration order, and a parameter object with no surviving
entries, including the empty object, yields the empty string with no
question mark. -/
theorem claim_C8 :
    buildQueryString [("a", .str "x"), ("b", .null), ("c", .undef), ("d", .num 1), ("e", .bool true)]
        = "?a=x&d=1&e=true"
    ∧ buildQueryString [] = ""
    ∧ (∀ params : QueryParams, params.all (fun kv => kv.2.isNullish) →
        buildQueryString params = "")
    ∧ (∀ params : QueryParams,
        buildQueryString params
          = buildQueryString (params.filter fun kv => !kv.2.isNullish)) := by
  refine ⟨by decide, rfl, ?_, ?_⟩
  · intro params h
    have hf : params.filter (fun kv => !kv.2.isNullish) = [] := by
      apply List.filter_eq_nil_iff.mpr
      intro kv hm
      have hkv := List.all_eq_true.mp h kv hm
      simp [hkv]
    simp only [buildQueryString, hf, List.map_nil]
    decide
  · intro params
    simp [buildQueryString, List.filter_filter]

/-- Witness for C8 at a parameter object whose only entry is null. -/
theorem claim_C8_witness :
    ([(("b" : String), JsValue.null)] : QueryParams).all (fun kv => kv.2.isNullish)
      ∧ buildQueryString [(("b" : String), JsValue.null)] = "" :=
  ⟨by decide, claim_C8.2.2.1 [("b", JsValue.null)] (by decide)⟩

/-- C9 counterexample: for the base URL a/ (which already ends in a
slash) and the path /p, appending a further trailing slash does not give
the same built URL, because buildUrl strips exactly one trailing slash:
the results are a//p and a/p. -/
theorem claim_C9_counterexample :
    ¬ (buildUrl ("a/" ++ "/") "/p" = buildUrl "a/" "/p") := by decide

/-- C9 amended: for every base URL that does not already end in a slash
and every path, building the URL from the base with a trailing slash
appended yields the same string as building it from the base itself
(exactly one trailing slash is stripped before concatenation). -/
theorem claim_C9_amended (base path : String) (h : base.toList.getLast? ≠ some '/') :
    buildUrl (base ++ "/") path = buildUrl base path := by
  obtain ⟨l⟩ := base
  unfold buildUrl
  rw [show ((⟨l⟩ : String) ++ "/").toList = l ++ ['/'] from rfl]
  rw [List.getLast?_concat, List.dropLast_concat]
  rw [if_pos rfl, if_neg h]

/-- Witness for C9 at a concrete base and path. -/
theorem claim_C9_witness :
    ("https://api.example.com" : String).toList.getLast? ≠ some '/'
      ∧ buildUrl ("https://api.example.com" ++ "/") "/api/v1/users"
          = buildUrl "https://api.example.com" "/api/v1/users" :=
  ⟨by decide, claim_C9_amended "https://api.example.com" "/api/v1/users" (by decide)⟩

/-- C7: evaluating the keys-collection URL construction at the failing
input shows the facade issues the request to /api/v1/users/{scope}/keys,
not /api/v1/entities/{scope}/keys as the specification and the test
suite of the same source file expect; the percent-encoding half of the
claim does hold, as the third conjunct shows for a scope containing a
space and a slash. -/
theorem claim_C7_code_divergence :
    getKeysUrl "https://api.example.com" "user-123"
        = "https://api.example.com/api/v1/users/user-123/keys"
    ∧ getKeysUrl "https://api.example.com" "user-123"
        ≠ "https://api.example.com/api/v1/entities/user-123/keys"
    ∧ getKeysUrl "https://api.example.com" "a b/c"
        = "https://api.example.com/api/v1/users/a%20b%2Fc/keys" := by
  refine ⟨by decide, by decide, by decide⟩

/-- C2: a facade method raises exactly when the transport is not ok or
carries no envelope; the raised message is Failed to operation followed
by the envelope error text, falling back (under JavaScript truthiness,
so absent or empty) to the envelope message text and then to Unknown
error; otherwise the method returns the transport data payload, which is
the envelope. -/
theorem claim_C2 {α : Type} (response : TransportResponse α) (operation : String) :
    ((∃ m, facadeResult response operation = .error m)
        ↔ (response.ok = false ∨ response.data = none))
    ∧ (∀ env, response.ok = true → response.data = some env →
        facadeResult response operation = .ok env)
    ∧ (∀ m, facadeResult response operation = .error m →
        m = "Failed to " ++ operation ++ ": " ++
          jsOr (response.data.bind BaseResponse.error)
            (jsOr (response.data.bind BaseResponse.message) "Unknown error")) := by
  obtain ⟨ok, data⟩ := response
  cases data <;> cases ok <;>
    simp [facadeResult, handleApiError, Option.bind]

/-- Witness for C2: a successful transport returns its envelope, and a
failed transport with an envelope error text of Not found produces the
formatted message for the operation get X. -/
theorem claim_C2_witness :
    facadeResult
        (⟨true, some ⟨true, some 5, none, none, "ts"⟩⟩ : TransportResponse Nat) "get keys"
      = .ok ⟨true, some 5, none, none, "ts"⟩
    ∧ handleApiError
        (some (⟨false, some ⟨false, none, some "Not found", none, "ts"⟩⟩ : TransportResponse Nat))
        "get X"
      = "Failed to get X: Not found" := by
  constructor
  · exact (claim_C2 ⟨true, some ⟨true, some 5, none, none, "ts"⟩⟩ "get keys").2.1
      ⟨true, some 5, none, none, "ts"⟩ rfl rfl
  · have h := (claim_C2 (⟨false, some ⟨false, none, some "Not found", none, "ts"⟩⟩ :
      TransportResponse Nat) "get X").2.2
      (handleApiError (some ⟨false, some ⟨false, none, some "Not found", none, "ts"⟩⟩) "get X")
      rfl
    rw [h]
    decide

/-- A query object holding exactly the JSON-stringified input under the
single key input serializes to ?input= followed by the form-encoded
JSON text. -/
theorem buildQueryString_input (v : String) :
    buildQueryString [("input", JsValue.str v)] = "?input=" ++ formEncode v := by
  have hne : ("input=" ++ formEncode v) ≠ "" := by
    intro hc
    have hd := congrArg String.data hc
    rw [String.data_append] at hd
    simp at hd
  show (if (("input=" ++ formEncode v) != "") = true
      then "?" ++ ("input=" ++ formEncode v) else "") = "?input=" ++ formEncode v
  rw [if_pos (bne_iff_ne.mpr hne), ← String.append_assoc]
  exact congrArg (fun t => t ++ formEncode v) (by decide)

/-- C6 counterexample: with the falsy input false, the GET variant
appends no input query key at all, and with the string input hi the POST
variant sends the wrapper object rather than the input itself as the
body. -/
theorem claim_C6_counterexample :
    (executeAiGetRequest "https://api.example.com" "proj" "ep" (.bool false)).url
        = "https://api.example.com/api/v1/ai/proj/ep"
    ∧ (executeAiPostRequest "https://api.example.com" "proj" "ep" (.str "hi")).body
        = some (.obj [("input", .str "hi")])
    ∧ some (JsValue.obj [("input", JsValue.str "hi")]) ≠ some (JsValue.str "hi") :=
  ⟨by decide, rfl, fun h => JsValue.noConfusion (Option.some.inj h)⟩

/-- C6 amended: the AI-execution entry point dispatches the GET selector
to the GET variant and the POST selector to the POST variant, the
default selector is POST; the POST variant sends the object wrapping the
input under the key input as the request body; the GET variant sends no
body and appends the JSON-stringified input under the single query key
input exactly when the input is truthy, and no query string otherwise. -/
theorem claim_C6_amended (baseUrl projectName endpointName : String) (input : JsValue) :
    executeAiRequest baseUrl projectName endpointName input .GET
        = executeAiGetRequest baseUrl projectName endpointName input
    ∧ executeAiRequest baseUrl projectName endpointName input .POST
        = executeAiPostRequest baseUrl projectName endpointName input
    ∧ defaultAiMethod = .POST
    ∧ (executeAiPostRequest baseUrl projectName endpointName input).body
        = some (.obj [("input", input)])
    ∧ (executeAiPostRequest baseUrl projectName endpointName input).method = .POST
    ∧ (executeAiGetRequest baseUrl projectName endpointName input).method = .GET
    ∧ (executeAiGetRequest baseUrl projectName endpointName input).body = none
    ∧ (input.truthy = true →
        (executeAiGetRequest baseUrl projectName endpointName input).url
          = buildUrl baseUrl ("/api/v1/ai/" ++ encodeURIComponent projectName ++ "/" ++
              encodeURIComponent endpointName ++ "?input=" ++
              formEncode (jsonStringify input)))
    ∧ (input.truthy = false →
        (executeAiGetRequest baseUrl projectName endpointName input).url
          = buildUrl baseUrl ("/api/v1/ai/" ++ encodeURIComponent projectName ++ "/" ++
              encodeURIComponent endpointName)) := by
  refine ⟨rfl, rfl, rfl, rfl, rfl, rfl, rfl, ?_, ?_⟩
  · intro ht
    simp only [executeAiGetRequest, ht, if_true, buildQueryString_input]
    simp [String.append_assoc]
  · intro hf
    simp only [executeAiGetRequest, hf]
    simp [String.append_empty]

/-- Witness for C6 at a truthy and at a falsy concrete input. -/
theorem claim_C6_witness :
    (JsValue.str "hi").truthy = true
    ∧ (executeAiGetRequest "https://api.example.com" "proj" "ep" (.str "hi")).url
        = buildUrl "https://api.example.com"
            ("/api/v1/ai/" ++ encodeURIComponent "proj" ++ "/" ++ encodeURIComponent "ep" ++
              "?input=" ++ formEncode (jsonStringify (.str "hi")))
    ∧ (JsValue.null).truthy = false
    ∧ (executeAiGetRequest "https://api.example.com" "proj" "ep" .null).url
        = buildUrl "https://api.example.com"
            ("/api/v1/ai/" ++ encodeURIComponent "proj" ++ "/" ++ encodeURIComponent "ep") :=
  ⟨rfl,
    (claim_C6_amended "https://api.example.com" "proj" "ep" (.str "hi")).2.2.2.2.2.2.2.1 rfl,
    rfl,
    (claim_C6_amended "https://api.example.com" "proj" "ep" .null).2.2.2.2.2.2.2.2 rfl⟩

/-- C5: no public binding operation propagates an exception: for every
facade behaviour (success envelope, failure envelope, or thrown
exception) and every prior state, each embedded binding operation
settles normally with an .ok result; failures surface only through the
final state error field or a returned failure envelope. -/
theorem claim_C5 :
    (∀ (κ : Type) (outcome : FacadeOutcome (List κ)) slug (s : useKeys.State κ),
      ∃ r, useKeys.refresh outcome slug s = .ok r)
    ∧ (∀ (κ : Type) (outcome : FacadeOutcome κ) slug keyId now (s : useKeys.State κ),
      ∃ r, useKeys.getKey outcome slug keyId now s = .ok r)
    ∧ (∀ (κ : Type) (m : FacadeOutcome κ) (ro : FacadeOutcome (List κ)) slug now
        (s : useKeys.State κ), ∃ r, useKeys.createKey m ro slug now s = .ok r)
    ∧ (∀ (κ : Type) (m : FacadeOutcome κ) (ro : FacadeOutcome (List κ)) slug keyId now
        (s : useKeys.State κ), ∃ r, useKeys.updateKey m ro slug keyId now s = .ok r)
    ∧ (∀ (κ : Type) (m : FacadeOutcome κ) (ro : FacadeOutcome (List κ)) slug keyId now
        (s : useKeys.State κ), ∃ r, useKeys.deleteKey m ro slug keyId now s = .ok r)
    ∧ (∀ (π : Type) (outcome : FacadeOutcome (List π)) slug params (s : useProjects.State π),
      ∃ r, useProjects.refresh outcome slug params s = .ok r)
    ∧ (∀ (π : Type) (outcome : FacadeOutcome π) slug pid now (s : useProjects.State π),
      ∃ r, useProjects.getProject outcome slug pid now s = .ok r)
    ∧ (∀ (π : Type) (m : FacadeOutcome π) (ro : FacadeOutcome (List π)) slug now
        (s : useProjects.State π), ∃ r, useProjects.createProject m ro slug now s = .ok r)
    ∧ (∀ (π : Type) (m : FacadeOutcome π) (ro : FacadeOutcome (List π)) slug pid now
        (s : useProjects.State π), ∃ r, useProjects.updateProject m ro slug pid now s = .ok r)
    ∧ (∀ (π : Type) (m : FacadeOutcome π) (ro : FacadeOutcome (List π)) slug pid now
        (s : useProjects.State π), ∃ r, useProjects.deleteProject m ro slug pid now s = .ok r)
    ∧ (∀ (ε : Type) (outcome : FacadeOutcome (List ε)) slug pid params
        (s : useEndpoints.State ε), ∃ r, useEndpoints.refresh outcome slug pid params s = .ok r)
    ∧ (∀ (ε : Type) (m : FacadeOutcome ε) (ro : FacadeOutcome (List ε)) slug pid now
        (s : useEndpoints.State ε), ∃ r, useEndpoints.createEndpoint m ro slug pid now s = .ok r)
    ∧ (∀ (ε : Type) (m : FacadeOutcome ε) (ro : FacadeOutcome (List ε)) slug pid eid now
        (s : useEndpoints.State ε),
      ∃ r, useEndpoints.updateEndpoint m ro slug pid eid now s = .ok r)
    ∧ (∀ (ε : Type) (m : FacadeOutcome ε) (ro : FacadeOutcome (List ε)) slug pid eid now
        (s : useEndpoints.State ε),
      ∃ r, useEndpoints.deleteEndpoint m ro slug pid eid now s = .ok r)
    ∧ (∀ (σ : Type) (outcome : FacadeOutcome σ) uid (s : useSettings.State σ),
      ∃ r, useSettings.refresh outcome uid s = .ok r)
    ∧ (∀ (σ : Type) (outcome : FacadeOutcome σ) uid now (s : useSettings.State σ),
      ∃ r, useSettings.updateSettings outcome uid now s = .ok r)
    ∧ (∀ (α : Type) (outcome : FacadeOutcome α) (s : useAnalytics.State α),
      ∃ r, useAnalytics.refresh outcome s = .ok r)
    ∧ (∀ (χ η : Type) (outcome : FacadeOutcome χ) (s : useRateLimits.State χ η),
      ∃ r, useRateLimits.refreshConfig outcome s = .ok r)
    ∧ (∀ (χ η : Type) (outcome : FacadeOutcome η) (s : useRateLimits.State χ η),
      ∃ r, useRateLimits.refreshHistory outcome s = .ok r)
    ∧ (∀ (γ : Type) (outcome : FacadeOutcome γ) (s : useStorageConfig.State γ),
      ∃ r, useStorageConfig.refresh outcome s = .ok r)
    ∧ (∀ (γ : Type) (outcome : FacadeOutcome γ) now (s : useStorageConfig.State γ),
      ∃ r, useStorageConfig.createOrUpdate outcome now s = .ok r)
    ∧ (∀ (γ : Type) (outcome : FacadeOutcome γ) now (s : useStorageConfig.State γ),
      ∃ r, useStorageConfig.update outcome now s = .ok r)
    ∧ (∀ (γ : Type) (outcome : FacadeOutcome γ) now (s : useStorageConfig.State γ),
      ∃ r, useStorageConfig.deleteConfig outcome now s = .ok r)
    ∧ (∀ (ρ : Type) (outcome : FacadeOutcome ρ) now (s : useAiExecute.State ρ),
      ∃ r, useAiExecute.execute outcome now s = .ok r) := by
  refine ⟨?_, ?_, ?_, ?_, ?_, ?_, ?_, ?_, ?_, ?_, ?_, ?_, ?_, ?_, ?_, ?_, ?_, ?_, ?_, ?_,
    ?_, ?_, ?_, ?_⟩
  · intro _ outcome _ _; exact ⟨_, rfl⟩
  · intro _ outcome _ _ _ _; cases outcome <;> exact ⟨_, rfl⟩
  · intro _ m ro _ _ _
    cases m with
    | error e => exact ⟨_, rfl⟩
    | ok response => obtain ⟨succ, _, _, _, _⟩ := response; cases succ <;> exact ⟨_, rfl⟩
  · intro _ m ro _ _ _ _
    cases m with
    | error e => exact ⟨_, rfl⟩
    | ok response => obtain ⟨succ, _, _, _, _⟩ := response; cases succ <;> exact ⟨_, rfl⟩
  · intro _ m ro _ _ _ _
    cases m with
    | error e => exact ⟨_, rfl⟩
    | ok response => obtain ⟨succ, _, _, _, _⟩ := response; cases succ <;> exact ⟨_, rfl⟩
  · intro _ outcome _ _ _; exact ⟨_, rfl⟩
  · intro _ outcome _ _ _ _; cases outcome <;> exact ⟨_, rfl⟩
  · intro _ m ro _ _ _
    cases m with
    | error e => exact ⟨_, rfl⟩
    | ok response => obtain ⟨succ, _, _, _, _⟩ := response; cases succ <;> exact ⟨_, rfl⟩
  · intro _ m ro _ _ _ _
    cases m with
    | error e => exact ⟨_, rfl⟩
    | ok response => obtain ⟨succ, _, _, _, _⟩ := response; cases succ <;> exact ⟨_, rfl⟩
  · intro _ m ro _ _ _ _
    cases m with
    | error e => exact ⟨_, rfl⟩
    | ok response => obtain ⟨succ, _, _, _, _⟩ := response; cases succ <;> exact ⟨_, rfl⟩
  · intro _ outcome _ _ _ _; exact ⟨_, rfl⟩
  · intro _ m ro _ _ _ _
    cases m with
    | error e => exact ⟨_, rfl⟩
    | ok response => obtain ⟨succ, _, _, _, _⟩ := response; cases succ <;> exact ⟨_, rfl⟩
  · intro _ m ro _ _ _ _ _
    cases m with
    | error e => exact ⟨_, rfl⟩
    | ok response => obtain ⟨succ, _, _, _, _⟩ := response; cases succ <;> exact ⟨_, rfl⟩
  · intro _ m ro _ _ _ _ _
    cases m with
    | error e => exact ⟨_, rfl⟩
    | ok response => obtain ⟨succ, _, _, _, _⟩ := response; cases succ <;> exact ⟨_, rfl⟩
  · intro _ outcome _ _; exact ⟨_, rfl⟩
  · intro _ outcome _ _ _; cases outcome <;> exact ⟨_, rfl⟩
  · intro _ outcome _; exact ⟨_, rfl⟩
  · intro _ _ outcome _; exact ⟨_, rfl⟩
  · intro _ _ outcome _; exact ⟨_, rfl⟩
  · intro _ outcome _; exact ⟨_, rfl⟩
  · intro _ outcome _ _; cases outcome <;> exact ⟨_, rfl⟩
  · intro _ outcome _ _; cases outcome <;> exact ⟨_, rfl⟩
  · intro _ outcome _ _; cases outcome <;> exact ⟨_, rfl⟩
  · intro _ outcome _ _; cases outcome <;> exact ⟨_, rfl⟩

/-- C10: when the facade call of a mutating binding operation returns an
envelope with success false without throwing, the binding returns that
envelope to the caller, leaves its error field null, leaves its held
data unchanged (visible in the final state, which differs from the prior
state only in the cleared loading and error fields), and performs no
follow-up read. -/
theorem claim_C10 :
    (∀ (κ : Type) (r : BaseResponse κ) (ro : FacadeOutcome (List κ)) slug now
        (s : useKeys.State κ), r.success = false →
      useKeys.createKey (.ok r) ro slug now s
        = .ok ({ s with isLoading := false, error := none }, r, [.createKey slug]))
    ∧ (∀ (κ : Type) (r : BaseResponse κ) (ro : FacadeOutcome (List κ)) slug keyId now
        (s : useKeys.State κ), r.success = false →
      useKeys.updateKey (.ok r) ro slug keyId now s
        = .ok ({ s with isLoading := false, error := none }, r, [.updateKey slug keyId]))
    ∧ (∀ (κ : Type) (r : BaseResponse κ) (ro : FacadeOutcome (List κ)) slug keyId now
        (s : useKeys.State κ), r.success = false →
      useKeys.deleteKey (.ok r) ro slug keyId now s
        = .ok ({ s with isLoading := false, error := none }, r, [.deleteKey slug keyId]))
    ∧ (∀ (π : Type) (r : BaseResponse π) (ro : FacadeOutcome (List π)) slug now
        (s : useProjects.State π), r.success = false →
      useProjects.createProject (.ok r) ro slug now s
        = .ok ({ s with isLoading := false, error := none }, r, [.createProject slug]))
    ∧ (∀ (π : Type) (r : BaseResponse π) (ro : FacadeOutcome (List π)) slug pid now
        (s : useProjects.State π), r.success = false →
      useProjects.updateProject (.ok r) ro slug pid now s
        = .ok ({ s with isLoading := false, error := none }, r, [.updateProject slug pid]))
    ∧ (∀ (π : Type) (r : BaseResponse π) (ro : FacadeOutcome (List π)) slug pid now
        (s : useProjects.State π), r.success = false →
      useProjects.deleteProject (.ok r) ro slug pid now s
        = .ok ({ s with isLoading := false, error := none }, r, [.deleteProject slug pid]))
    ∧ (∀ (ε : Type) (r : BaseResponse ε) (ro : FacadeOutcome (List ε)) slug pid now
        (s : useEndpoints.State ε), r.success = false →
      useEndpoints.createEndpoint (.ok r) ro slug pid now s
        = .ok ({ s with isLoading := false, error := none }, r, [.createEndpoint slug pid]))
    ∧ (∀ (ε : Type) (r : BaseResponse ε) (ro : FacadeOutcome (List ε)) slug pid eid now
        (s : useEndpoints.State ε), r.success = false →
      useEndpoints.updateEndpoint (.ok r) ro slug pid eid now s
        = .ok ({ s with isLoading := false, error := none }, r,
            [.updateEndpoint slug pid eid]))
    ∧ (∀ (ε : Type) (r : BaseResponse ε) (ro : FacadeOutcome (List ε)) slug pid eid now
        (s : useEndpoints.State ε), r.success = false →
      useEndpoints.deleteEndpoint (.ok r) ro slug pid eid now s
        = .ok ({ s with isLoading := false, error := none }, r,
            [.deleteEndpoint slug pid eid]))
    ∧ (∀ (σ : Type) (r : BaseResponse σ) uid now (s : useSettings.State σ),
        r.success = false →
      useSettings.updateSettings (.ok r) uid now s
        = .ok ({ s with isLoading := false, error := none }, r, [.updateSettings uid]))
    ∧ (∀ (γ : Type) (r : BaseResponse γ) now (s : useStorageConfig.State γ),
        r.success = false →
      useStorageConfig.createOrUpdate (.ok r) now s
        = .ok ({ s with isLoading := false, error := none }, r))
    ∧ (∀ (γ : Type) (r : BaseResponse γ) now (s : useStorageConfig.State γ),
        r.success = false →
      useStorageConfig.update (.ok r) now s
        = .ok ({ s with isLoading := false, error := none }, r))
    ∧ (∀ (γ : Type) (r : BaseResponse γ) now (s : useStorageConfig.State γ),
        r.success = false →
      useStorageConfig.deleteConfig (.ok r) now s
        = .ok ({ s with isLoading := false, error := none }, r)) := by
  refine ⟨?_, ?_, ?_, ?_, ?_, ?_, ?_, ?_, ?_, ?_, ?_, ?_, ?_⟩ <;>
  · intros
    rename_i s h
    casesm* Shapeshyft.BaseResponse _
    rename_i succ pd pe pm pt
    have h2 : succ = false := h
    subst h2
    rfl

/-- Witness for C10: a concrete failed creation through useKeys leaves
the empty initial state with only loading cleared and returns the
failure envelope. -/
theorem claim_C10_witness :
    (⟨false, none, some "duplicate key", none, "ts"⟩ : BaseResponse Nat).success = false
    ∧ useKeys.createKey (.ok (⟨false, none, some "duplicate key", none, "ts"⟩ : BaseResponse Nat))
        (.ok ⟨true, some [], none, none, "ts"⟩) "entity-1" "t0" useKeys.init
      = .ok (({ keys := [], isLoading := false, error := none } : useKeys.State Nat),
          ⟨false, none, some "duplicate key", none, "ts"⟩, [.createKey "entity-1"]) :=
  ⟨rfl,
    claim_C10.1 Nat ⟨false, none, some "duplicate key", none, "ts"⟩
      (.ok ⟨true, some [], none, none, "ts"⟩) "entity-1" "t0" useKeys.init rfl⟩

/-- C3 counterexample: useSettings.updateSettings is a mutating binding
operation whose facade call reports success true, yet the binding
performs no follow-up read: its call trace is exactly the single update
call and contains no getSettings invocation (the returned record is
stored directly instead). -/
theorem claim_C3_counterexample :
    useSettings.updateSettings
        (.ok (⟨true, some 5, none, none, "ts"⟩ : BaseResponse Nat))
        "user-1" "t0" useSettings.init
      = .ok (({ settings := some 5, isLoading := false, error := none } : useSettings.State Nat),
          ⟨true, some 5, none, none, "ts"⟩, [.updateSettings "user-1"])
    ∧ CallEvent.getSettings "user-1" ∉ [CallEvent.updateSettings "user-1"] :=
  ⟨rfl, fun hm => CallEvent.noConfusion (List.mem_singleton.mp hm)⟩

/-- C3 amended: for the collection-valued bindings (keys, projects,
endpoints), every mutating operation whose facade call returns a
success-true envelope re-invokes the matching read path with the same
scope identifiers and the retained last-used filter params after the
mutation settles, and returns the mutation envelope to the caller
regardless of the follow-up refresh outcome; the singleton-record
bindings (settings, storage configuration) instead store the record
returned by the mutation directly. -/
theorem claim_C3_amended :
    (∀ (κ : Type) (r : BaseResponse κ) (ro : FacadeOutcome (List κ)) slug now
        (s : useKeys.State κ), r.success = true →
      ∃ s2, useKeys.createKey (.ok r) ro slug now s
        = .ok (s2, r, [.createKey slug, .getKeys slug]))
    ∧ (∀ (κ : Type) (r : BaseResponse κ) (ro : FacadeOutcome (List κ)) slug keyId now
        (s : useKeys.State κ), r.success = true →
      ∃ s2, useKeys.updateKey (.ok r) ro slug keyId now s
        = .ok (s2, r, [.updateKey slug keyId, .getKeys slug]))
    ∧ (∀ (κ : Type) (r : BaseResponse κ) (ro : FacadeOutcome (List κ)) slug keyId now
        (s : useKeys.State κ), r.success = true →
      ∃ s2, useKeys.deleteKey (.ok r) ro slug keyId now s
        = .ok (s2, r, [.deleteKey slug keyId, .getKeys slug]))
    ∧ (∀ (π : Type) (r : BaseResponse π) (ro : FacadeOutcome (List π)) slug now
        (s : useProjects.State π), r.success = true →
      ∃ s2, useProjects.createProject (.ok r) ro slug now s
        = .ok (s2, r, [.createProject slug, .getProjects slug s.lastParams]))
    ∧ (∀ (π : Type) (r : BaseResponse π) (ro : FacadeOutcome (List π)) slug pid now
        (s : useProjects.State π), r.success = true →
      ∃ s2, useProjects.updateProject (.ok r) ro slug pid now s
        = .ok (s2, r, [.updateProject slug pid, .getProjects slug s.lastParams]))
    ∧ (∀ (π : Type) (r : BaseResponse π) (ro : FacadeOutcome (List π)) slug pid now
        (s : useProjects.State π), r.success = true →
      ∃ s2, useProjects.deleteProject (.ok r) ro slug pid now s
        = .ok (s2, r, [.deleteProject slug pid, .getProjects slug s.lastParams]))
    ∧ (∀ (ε : Type) (r : BaseResponse ε) (ro : FacadeOutcome (List ε)) slug pid now
        (s : useEndpoints.State ε), r.success = true →
      ∃ s2, useEndpoints.createEndpoint (.ok r) ro slug pid now s
        = .ok (s2, r, [.createEndpoint slug pid, .getEndpoints slug pid s.lastParams]))
    ∧ (∀ (ε : Type) (r : BaseResponse ε) (ro : FacadeOutcome (List ε)) slug pid eid now
        (s : useEndpoints.State ε), r.success = true →
      ∃ s2, useEndpoints.updateEndpoint (.ok r) ro slug pid eid now s
        = .ok (s2, r, [.updateEndpoint slug pid eid, .getEndpoints slug pid s.lastParams]))
    ∧ (∀ (ε : Type) (r : BaseResponse ε) (ro : FacadeOutcome (List ε)) slug pid eid now
        (s : useEndpoints.State ε), r.success = true →
      ∃ s2, useEndpoints.deleteEndpoint (.ok r) ro slug pid eid now s
        = .ok (s2, r, [.deleteEndpoint slug pid eid, .getEndpoints slug pid s.lastParams]))
    ∧ (∀ (σ : Type) (r : BaseResponse σ) (d : σ) uid now (s : useSettings.State σ),
        r.success = true → r.data = some d →
      useSettings.updateSettings (.ok r) uid now s
        = .ok ({ s with settings := some d, isLoading := false, error := none }, r,
            [.updateSettings uid]))
    ∧ (∀ (γ : Type) (r : BaseResponse γ) (d : γ) now (s : useStorageConfig.State γ),
        r.success = true → r.data = some d →
      useStorageConfig.createOrUpdate (.ok r) now s
        = .ok ({ s with storageConfig := some d, isLoading := false, error := none }, r)) := by
  refine ⟨?_, ?_, ?_, ?_, ?_, ?_, ?_, ?_, ?_, ?_, ?_⟩
  · intro _ r ro slug now s h
    obtain ⟨succ, pd, pe, pm, pt⟩ := r
    have h2 : succ = true := h
    subst h2
    cases ro <;> exact ⟨_, rfl⟩
  · intro _ r ro slug keyId now s h
    obtain ⟨succ, pd, pe, pm, pt⟩ := r
    have h2 : succ = true := h
    subst h2
    cases ro <;> exact ⟨_, rfl⟩
  · intro _ r ro slug keyId now s h
    obtain ⟨succ, pd, pe, pm, pt⟩ := r
    have h2 : succ = true := h
    subst h2
    cases ro <;> exact ⟨_, rfl⟩
  · intro _ r ro slug now s h
    obtain ⟨succ, pd, pe, pm, pt⟩ := r
    have h2 : succ = true := h
    subst h2
    cases ro <;> exact ⟨_, rfl⟩
  · intro _ r ro slug pid now s h
    obtain ⟨succ, pd, pe, pm, pt⟩ := r
    have h2 : succ = true := h
    subst h2
    cases ro <;> exact ⟨_, rfl⟩
  · intro _ r ro slug pid now s h
    obtain ⟨succ, pd, pe, pm, pt⟩ := r
    have h2 : succ = true := h
    subst h2
    cases ro <;> exact ⟨_, rfl⟩
  · intro _ r ro slug pid now s h
    obtain ⟨succ, pd, pe, pm, pt⟩ := r
    have h2 : succ = true := h
    subst h2
    cases ro <;> exact ⟨_, rfl⟩
  · intro _ r ro slug pid eid now s h
    obtain ⟨succ, pd, pe, pm, pt⟩ := r
    have h2 : succ = true := h
    subst h2
    cases ro <;> exact ⟨_, rfl⟩
  · intro _ r ro slug pid eid now s h
    obtain ⟨succ, pd, pe, pm, pt⟩ := r
    have h2 : succ = true := h
    subst h2
    cases ro <;> exact ⟨_, rfl⟩
  · intro _ r d uid now s h hd
    obtain ⟨succ, pd, pe, pm, pt⟩ := r
    have h2 : succ = true := h
    have hd2 : pd = some d := hd
    subst h2
    subst hd2
    rfl
  · intro _ r d now s h hd
    obtain ⟨succ, pd, pe, pm, pt⟩ := r
    have h2 : succ = true := h
    have hd2 : pd = some d := hd
    subst h2
    subst hd2
    rfl

/-- Witness for C3 at a concrete successful creation through useKeys and
a concrete successful settings update. -/
theorem claim_C3_witness :
    (⟨true, some 7, none, none, "ts"⟩ : BaseResponse Nat).success = true
    ∧ (∃ s2, useKeys.createKey (.ok (⟨true, some 7, none, none, "ts"⟩ : BaseResponse Nat))
        (.error .nonError) "entity-1" "t0" useKeys.init
          = .ok (s2, ⟨true, some 7, none, none, "ts"⟩,
              [.createKey "entity-1", .getKeys "entity-1"]))
    ∧ useSettings.updateSettings (.ok (⟨true, some 7, none, none, "ts"⟩ : BaseResponse Nat))
        "user-1" "t0" useSettings.init
      = .ok (({ settings := some 7, isLoading := false, error := none } :
            useSettings.State Nat),
          ⟨true, some 7, none, none, "ts"⟩, [.updateSettings "user-1"]) :=
  ⟨rfl,
    claim_C3_amended.1 Nat ⟨true, some 7, none, none, "ts"⟩ (.error .nonError)
      "entity-1" "t0" useKeys.init rfl,
    claim_C3_amended.2.2.2.2.2.2.2.2.2.1 Nat ⟨true, some 7, none, none, "ts"⟩ 7
      "user-1" "t0" useSettings.init rfl rfl⟩

/-- C1 counterexample: the storage-configuration refresh violates the
claim outside the not-found case.  With a held record and an
unsuccessful envelope whose error text is Server exploded (no not-found
condition), the held data is cleared to null instead of staying
unchanged; and with an unsuccessful envelope carrying no error text at
all, the final error field stays null instead of being non-null. -/
theorem claim_C1_counterexample :
    useStorageConfig.refresh
        (.ok (⟨false, none, some "Server exploded", none, "ts"⟩ : BaseResponse Nat))
        { storageConfig := some 0, isLoading := false, error := none }
      = .ok { storageConfig := none, isLoading := false, error := some "Server exploded" }
    ∧ (some 0 : Option Nat) ≠ none
    ∧ useStorageConfig.refresh (.ok (⟨false, none, none, none, "ts"⟩ : BaseResponse Nat))
        { storageConfig := some 0, isLoading := false, error := none }
      = .ok { storageConfig := none, isLoading := false, error := none } :=
  ⟨rfl, fun hc => Option.noConfusion hc, rfl⟩

/-- C1 amended: for every failing refresh (unsuccessful envelope or
thrown exception) of the keys, projects, endpoints, settings, analytics
and rate-limits bindings, the final state has loading cleared, the held
data unchanged, and a non-null error equal to the envelope error text
(with the binding default under truthiness, hence non-empty there, as
the last conjunct states) or to the thrown Error message, which an empty
Error message can make empty.  The storage-configuration binding
differs: an unsuccessful envelope always clears the record to null and
stores an error only when the envelope carries a non-empty error text
not containing a not-found marker, while a thrown exception clears the
record with no error exactly on a not-found or 404 message and
otherwise behaves like the other bindings. -/
theorem claim_C1_amended :
    (∀ (κ : Type) (outcome : FacadeOutcome (List κ)) slug (s : useKeys.State κ),
      failedOutcome outcome →
      useKeys.refresh outcome slug s
        = .ok ({ s with isLoading := false, error := some (failureText outcome "Failed to fetch keys") },
            [.getKeys slug]))
    ∧ (∀ (π : Type) (outcome : FacadeOutcome (List π)) slug params (s : useProjects.State π),
      failedOutcome outcome →
      useProjects.refresh outcome slug params s
        = .ok ({ s with isLoading := false, lastParams := params, error := some (failureText outcome "Failed to fetch projects") },
            [.getProjects slug params]))
    ∧ (∀ (ε : Type) (outcome : FacadeOutcome (List ε)) slug pid params
        (s : useEndpoints.State ε), failedOutcome outcome →
      useEndpoints.refresh outcome slug pid params s
        = .ok ({ s with isLoading := false, lastParams := params, error := some (failureText outcome "Failed to fetch endpoints") },
            [.getEndpoints slug pid params]))
    ∧ (∀ (σ : Type) (outcome : FacadeOutcome σ) uid (s : useSettings.State σ),
      failedOutcome outcome →
      useSettings.refresh outcome uid s
        = .ok ({ s with isLoading := false, error := some (failureText outcome "Failed to fetch settings") },
            [.getSettings uid]))
    ∧ (∀ (α : Type) (outcome : FacadeOutcome α) (s : useAnalytics.State α),
      failedOutcome outcome →
      useAnalytics.refresh outcome s
        = .ok { s with isLoading := false, error := some (failureText outcome "Failed to fetch analytics") })
    ∧ (∀ (χ η : Type) (outcome : FacadeOutcome χ) (s : useRateLimits.State χ η),
      failedOutcome outcome →
      useRateLimits.refreshConfig outcome s
        = .ok { s with isLoadingConfig := false, error := some (failureText outcome "Failed to fetch rate limits config") })
    ∧ (∀ (χ η : Type) (outcome : FacadeOutcome η) (s : useRateLimits.State χ η),
      failedOutcome outcome →
      useRateLimits.refreshHistory outcome s
        = .ok { s with isLoadingHistory := false, error := some (failureText outcome "Failed to fetch rate limit history") })
    ∧ (∀ (γ : Type) (r : BaseResponse γ) (s : useStorageConfig.State γ), r.success = false →
      useStorageConfig.refresh (.ok r) s
        = .ok { storageConfig := none, isLoading := false, error := storageEnvelopeError r.error })
    ∧ (∀ (γ : Type) (e : Thrown) (s : useStorageConfig.State γ),
      useStorageConfig.refresh (.error e) s
        = .ok (if strIncludes (e.messageOr "Failed to fetch storage config") "not found"
              || strIncludes (e.messageOr "Failed to fetch storage config") "404"
            then { storageConfig := none, isLoading := false, error := none }
            else { s with isLoading := false, error := some (e.messageOr "Failed to fetch storage config") }))
    ∧ (∀ (eo : Option String) (dflt : String), dflt ≠ "" → jsOr eo dflt ≠ "") := by
  refine ⟨?_, ?_, ?_, ?_, ?_, ?_, ?_, ?_, ?_, ?_⟩
  · intro _ outcome slug s h
    cases outcome with
    | error e => rfl
    | ok r =>
        obtain ⟨succ, pd, pe, pm, pt⟩ := r
        have h2 : succ = false := h
        subst h2
        rfl
  · intro _ outcome slug params s h
    cases outcome with
    | error e => rfl
    | ok r =>
        obtain ⟨succ, pd, pe, pm, pt⟩ := r
        have h2 : succ = false := h
        subst h2
        rfl
  · intro _ outcome slug pid params s h
    cases outcome with
    | error e => rfl
    | ok r =>
        obtain ⟨succ, pd, pe, pm, pt⟩ := r
        have h2 : succ = false := h
        subst h2
        rfl
  · intro _ outcome uid s h
    cases outcome with
    | error e => rfl
    | ok r =>
        obtain ⟨succ, pd, pe, pm, pt⟩ := r
        have h2 : succ = false := h
        subst h2
        rfl
  · intro _ outcome s h
    cases outcome with
    | error e => rfl
    | ok r =>
        obtain ⟨succ, pd, pe, pm, pt⟩ := r
        have h2 : succ = false := h
        subst h2
        rfl
  · intro _ _ outcome s h
    cases outcome with
    | error e => rfl
    | ok r =>
        obtain ⟨succ, pd, pe, pm, pt⟩ := r
        have h2 : succ = false := h
        subst h2
        rfl
  · intro _ _ outcome s h
    cases outcome with
    | error e => rfl
    | ok r =>
        obtain ⟨succ, pd, pe, pm, pt⟩ := r
        have h2 : succ = false := h
        subst h2
        rfl
  · intro _ r s h
    obtain ⟨succ, pd, pe, pm, pt⟩ := r
    have h2 : succ = false := h
    subst h2
    cases pe with
    | none => cases pd <;> rfl
    | some e =>
        by_cases hc : (e != "" && !(strIncludes e "not found")) = true
        all_goals cases pd <;> simp [useStorageConfig.refresh, storageEnvelopeError, hc]
  · intro _ e s
    rcases hc : (strIncludes (e.messageOr "Failed to fetch storage config") "not found"
        || strIncludes (e.messageOr "Failed to fetch storage config") "404") with _ | _
    all_goals first
      | (simp only [useStorageConfig.refresh, hc, if_true, if_false]; rfl)
      | simp only [useStorageConfig.refresh, hc, if_true, if_false]
  · intro eo dflt hd
    cases eo with
    | none => simpa [jsOr] using hd
    | some e =>
        simp only [jsOr]
        by_cases he : (e == "") = true
        · rw [if_pos he]; exact hd
        · rw [if_neg he]; exact fun hEq => he (by simp [hEq])

/-- Witness for C1 at a concrete failed keys refresh. -/
theorem claim_C1_witness :
    failedOutcome (.ok (⟨false, none, some "boom", none, "ts"⟩ : BaseResponse (List Nat)))
    ∧ useKeys.refresh (.ok (⟨false, none, some "boom", none, "ts"⟩ : BaseResponse (List Nat)))
        "entity-1" useKeys.init
      = .ok (({ keys := [], isLoading := false, error := some "boom" } : useKeys.State Nat),
          [.getKeys "entity-1"]) :=
  ⟨rfl,
    claim_C1_amended.1 Nat (.ok ⟨false, none, some "boom", none, "ts"⟩)
      "entity-1" useKeys.init rfl⟩

/-- C4 counterexample: an unsuccessful envelope with no error text at
all is a failure that is not a not-found condition, yet the binding
leaves the error field unpopulated (besides clearing the record), so the
clause that any non-not-found failure populates the error field is
false.  The same happens for the empty error text. -/
theorem claim_C4_counterexample :
    useStorageConfig.refresh (.ok (⟨false, none, none, none, "ts"⟩ : BaseResponse Nat))
        { storageConfig := some 0, isLoading := false, error := none }
      = .ok { storageConfig := none, isLoading := false, error := none }
    ∧ useStorageConfig.refresh (.ok (⟨false, none, some "", none, "ts"⟩ : BaseResponse Nat))
        { storageConfig := some 0, isLoading := false, error := none }
      = .ok { storageConfig := none, isLoading := false, error := none } :=
  ⟨rfl, rfl⟩

/-- C4 amended: the storage-configuration refresh clears the held record
to null on every unsuccessful envelope and populates the error field
exactly when the envelope carries a non-empty error text that does not
contain the not-found marker; a thrown exception whose message contains
a not-found or 404 marker clears the record and leaves the error null,
and any other thrown exception populates the error field with its
message, leaving the record unchanged. -/
theorem claim_C4_amended :
    (∀ (γ : Type) (r : BaseResponse γ) (s : useStorageConfig.State γ), r.success = false →
      useStorageConfig.refresh (.ok r) s
        = .ok { storageConfig := none, isLoading := false, error := storageEnvelopeError r.error })
    ∧ (∀ (γ : Type) (e : Thrown) (s : useStorageConfig.State γ),
        (strIncludes (e.messageOr "Failed to fetch storage config") "not found"
          || strIncludes (e.messageOr "Failed to fetch storage config") "404") = true →
      useStorageConfig.refresh (.error e) s
        = .ok (({ storageConfig := none, isLoading := false, error := none } :
            useStorageConfig.State γ)))
    ∧ (∀ (γ : Type) (e : Thrown) (s : useStorageConfig.State γ),
        (strIncludes (e.messageOr "Failed to fetch storage config") "not found"
          || strIncludes (e.messageOr "Failed to fetch storage config") "404") = false →
      useStorageConfig.refresh (.error e) s
        = .ok { s with isLoading := false, error := some (e.messageOr "Failed to fetch storage config") })
    ∧ (∀ (e : String), strIncludes e "not found" = false → e ≠ "" →
      storageEnvelopeError (some e) = some e)
    ∧ (∀ (e : String), strIncludes e "not found" = true →
      storageEnvelopeError (some e) = none) := by
  refine ⟨?_, ?_, ?_, ?_, ?_⟩
  · intro _ r s h
    obtain ⟨succ, pd, pe, pm, pt⟩ := r
    have h2 : succ = false := h
    subst h2
    cases pe with
    | none => cases pd <;> rfl
    | some e =>
        by_cases hc : (e != "" && !(strIncludes e "not found")) = true
        all_goals cases pd <;> simp [useStorageConfig.refresh, storageEnvelopeError, hc]
  · intro _ e s h
    simp only [useStorageConfig.refresh, h, if_true]
  · intro _ e s h
    simp only [useStorageConfig.refresh, h, if_false]
    rfl
  · intro e h1 h2
    have hb : (e != "") = true := bne_iff_ne.mpr h2
    simp [storageEnvelopeError, hb, h1]
  · intro e h1
    simp [storageEnvelopeError, h1]

/-- Witness for C4: a thrown 404 clears the record without an error,
and a thrown unrelated exception populates the error; an envelope error
text of Config not found is suppressed. -/
theorem claim_C4_witness :
    (strIncludes ((Thrown.error "HTTP 404").messageOr "Failed to fetch storage config") "not found"
      || strIncludes ((Thrown.error "HTTP 404").messageOr "Failed to fetch storage config") "404")
        = true
    ∧ useStorageConfig.refresh (.error (.error "HTTP 404"))
        ({ storageConfig := some 3, isLoading := false, error := none } :
          useStorageConfig.State Nat)
      = .ok { storageConfig := none, isLoading := false, error := none }
    ∧ useStorageConfig.refresh (.error (.error "boom"))
        ({ storageConfig := some 3, isLoading := false, error := none } :
          useStorageConfig.State Nat)
      = .ok { storageConfig := some 3, isLoading := false, error := some "boom" }
    ∧ storageEnvelopeError (some "Config not found") = none :=
  ⟨by decide,
    claim_C4_amended.2.1 Nat (.error "HTTP 404")
      { storageConfig := some 3, isLoading := false, error := none } (by decide),
    claim_C4_amended.2.2.1 Nat (.error "boom")
      { storageConfig := some 3, isLoading := false, error := none } (by decide),
    claim_C4_amended.2.2.2.2 "Config not found" (by decide)⟩

end Shapeshyft
